import Mathlib

/-!
Verification of the j4rs bridge core (src/rust/src/lib.rs) against its design
specification. The crate root under src contains the convenience constructor
new_jvm, the JNI callback bridge entry point
Java_org_astonbitecode_j4rs_api_invocation_NativeCallbackToRustChannelSupport_docallbacktochannel,
and the test suite; the api, jni_utils and provisioning modules are not part of
src, so the pieces of the data model they provide are modelled from the spec
where a claim needs them, each such definition marked in its doc comment.
-/

namespace J4rs

/-- Error taxonomy of the bridge, spec section 7. -/
inductive J4rsError where
  | RuntimeUnavailable
  | AttachFailed
  | ClassNotFound
  | ConversionError
  | NumericOverflow
  | InvalidCast
  | IllegalCast
  | MethodNotFound
  | InvocationFailed (message : String)
  | NullResult
  | ChannelClosed
  | ArtifactDeployFailed
deriving DecidableEq, Repr

/-- Modelled from the spec: the values living inside the managed runtime that the
    marshaling layer of spec section 4.2 produces and consumes (strings, 64-bit and
    32-bit integers, booleans, homogeneous arrays with an element class, null). -/
inductive JValue where
  | jstring (s : String)
  | jlong (v : Int)
  | jint (v : Int)
  | jbool (b : Bool)
  | jarray (elem_class : String) (elems : List JValue)
  | jnull
deriving Repr

/-- Modelled from the spec: the ObjectHandle of spec section 3, named Instance in
    the crate api. It carries the declared class name used for member resolution,
    the runtime class of the underlying object, and (in this model) the managed
    value it refers to. It has no thread-affinity data. -/
structure Instance where
  class_name : String
  runtime_class : String
  value : JValue
deriving Repr

/-- Modelled from the spec: the InvocationArg of spec section 3 as exercised by the
    crate tests: a primitive-tagged scalar, a host value to be constructed as the
    named managed class, or an existing Instance passed through. Managed arrays are
    built with create_java_array and then passed as handles, as the variadic tests
    in src do. -/
inductive InvocationArg where
  | primitive (v : JValue)
  | from_host (v : JValue) (class_name : String)
  | from_handle (i : Instance) (class_name : String)
deriving Repr

/-- Modelled from the spec: to_wire of spec section 4.2, producing the managed
    value an argument marshals to. -/
def to_wire : InvocationArg → JValue
  | .primitive v => v
  | .from_host v _ => v
  | .from_handle i _ => i.value

/-- Modelled from the spec: create_java_array allocates a managed array of the
    element class and populates it positionally from the marshaled arguments
    (spec section 4.2, Array variant). -/
def create_java_array (elem_class : String) (args : List InvocationArg) :
    Except J4rsError Instance :=
  Except.ok ⟨elem_class ++ "[]", elem_class ++ "[]", .jarray elem_class (args.map to_wire)⟩

/-- Extracts the host strings of a managed string array, refusing non-string
    elements. -/
def jstringList : List JValue → Option (List String)
  | [] => some []
  | .jstring s :: rest => (jstringList rest).map (fun l => s :: l)
  | _ => none

/-- Modelled from the spec: create_instance resolves a constructor of the named
    managed class matching the marshaled arguments (spec section 4.3). The managed
    classes themselves live outside src; the two constructors the claims exercise
    are modelled: java.lang.String from one host string, and the test class MyTest
    whose variadic constructor stores the elements of its string-array argument
    joined with comma-space, the joined form its getMyString accessor later
    returns (spec section 8). -/
def create_instance (class_name : String) (args : List InvocationArg) :
    Except J4rsError Instance :=
  let vs := args.map to_wire
  if class_name = "java.lang.String" then
    match vs with
    | [.jstring s] => Except.ok ⟨"java.lang.String", "java.lang.String", .jstring s⟩
    | _ => Except.error .ConversionError
  else if class_name = "org.astonbitecode.j4rs.tests.MyTest" then
    match vs with
    | [.jarray _ elems] =>
      match jstringList elems with
      | some strs =>
        Except.ok ⟨class_name, class_name, .jstring (String.intercalate ", " strs)⟩
      | none => Except.error .ConversionError
    | _ => Except.error .ConversionError
  else Except.error .ClassNotFound

/-- Modelled from the spec: the invocation engine resolves the member against the
    declared class of the receiver and the managed runtime executes it on the
    receiver's value (spec section 4.4). The managed classes are outside src, so
    the members the claims exercise are modelled: String isEmpty, MyTest
    getMyString and getMap (a two-entry map, as the parent_interface_method test
    asserts), and Map size. Unknown members fail with MethodNotFound. -/
def invokeImpl (declared : String) (v : JValue) (method : String) :
    Except J4rsError Instance :=
  if declared = "java.lang.String" then
    if method = "isEmpty" then
      match v with
      | .jstring s => Except.ok ⟨"java.lang.Boolean", "java.lang.Boolean", .jbool s.isEmpty⟩
      | _ => Except.error .InvalidCast
    else Except.error .MethodNotFound
  else if declared = "org.astonbitecode.j4rs.tests.MyTest" then
    if method = "getMyString" then
      match v with
      | .jstring s => Except.ok ⟨"java.lang.String", "java.lang.String", .jstring s⟩
      | _ => Except.error .InvalidCast
    else if method = "getMap" then
      Except.ok ⟨"java.util.HashMap", "java.util.HashMap",
        .jarray "java.util.Map" [.jstring "one", .jstring "two"]⟩
    else Except.error .MethodNotFound
  else if declared = "java.util.Map" then
    if method = "size" then
      match v with
      | .jarray _ es => Except.ok ⟨"java.lang.Integer", "java.lang.Integer", .jint es.length⟩
      | _ => Except.error .InvalidCast
    else Except.error .MethodNotFound
  else Except.error .MethodNotFound

/-- Modelled from the spec: invoke performs member resolution against the declared
    class of the handle (spec sections 4.3 and 4.4). -/
def invoke (i : Instance) (method : String) : Except J4rsError Instance :=
  invokeImpl i.class_name i.value method

/-- Modelled from the spec: the assignability relation of the managed runtime's
    type system, which lives outside src; assignable target runtime decides
    whether a reference of the given runtime class may be viewed as the target
    class (spec sections 4.3 and 8). -/
structure ClassTable where
  assignable : String → String → Bool

/-- Modelled from the spec: cast reinterprets the same managed reference under a
    different declared class and fails with IllegalCast when the managed runtime
    rejects the cast, that is when the target class is not assignable from the
    object's runtime class (spec sections 4.3 and 8). -/
def cast (t : ClassTable) (i : Instance) (target : String) : Except J4rsError Instance :=
  if t.assignable target i.runtime_class then
    Except.ok { i with class_name := target }
  else Except.error .IllegalCast

/-- Modelled from the spec: from_wire to a host String (spec section 4.2). -/
def to_rust_string (i : Instance) : Except J4rsError String :=
  match i.value with
  | .jstring s => Except.ok s
  | .jnull => Except.error .NullResult
  | _ => Except.error .InvalidCast

/-- Modelled from the spec: from_wire to a host 32-bit integer; narrowing a managed
    64-bit integer is overflow-checked and fails with NumericOverflow instead of
    truncating (spec section 4.2 design rule). -/
def from_wire_i32 (i : Instance) : Except J4rsError Int :=
  match i.value with
  | .jint v => Except.ok v
  | .jlong v =>
    if -(2 ^ 31) ≤ v ∧ v < 2 ^ 31 then Except.ok v else Except.error .NumericOverflow
  | .jnull => Except.error .NullResult
  | _ => Except.error .InvalidCast

/-- A classpath entry, a string wrapper in the crate api. -/
abbrev ClasspathEntry := String

/-- A JVM startup option, a string wrapper in the crate api. -/
abbrev JavaOpt := String

/-- Modelled from the spec: the RuntimeHandle of spec section 3, named Jvm in the
    crate api: configuration fixed at creation plus the per-thread attachment's
    detach-on-drop flag that Jvm.detach_thread_on_drop mutates (spec section 4.1). -/
structure Jvm where
  classpath : List ClasspathEntry
  java_opts : List JavaOpt
  detach_on_drop : Bool
deriving DecidableEq, Repr

/-- The Jvm method detach_thread_on_drop, which sets whether the thread attachment
    is torn down when the Jvm value is dropped; modelled from the spec
    (section 4.1), its body being outside src. -/
def Jvm.detach_thread_on_drop (j : Jvm) (b : Bool) : Jvm :=
  { j with detach_on_drop := b }

/-- Modelled from the spec: the construction surface of spec section 6; the
    JvmBuilder implementation lives in the api module, outside src. -/
structure JvmBuilder where
  cp_entries : List ClasspathEntry
  opts : List JavaOpt
deriving Repr

/-- JvmBuilder.new starts from an empty configuration. -/
def JvmBuilder.new : JvmBuilder :=
  { cp_entries := [], opts := [] }

/-- JvmBuilder.classpath_entries sets the classpath entries of the configuration. -/
def JvmBuilder.classpath_entries (b : JvmBuilder) (entries : List ClasspathEntry) :
    JvmBuilder :=
  { b with cp_entries := entries }

/-- JvmBuilder.java_opts sets the runtime startup options of the configuration. -/
def JvmBuilder.java_opts (b : JvmBuilder) (jopts : List JavaOpt) : JvmBuilder :=
  { b with opts := jopts }

/-- Modelled from the spec: build creates the RuntimeHandle carrying the configured
    classpath and options, its thread attachment defaulting to detach on exit
    (spec sections 4.1 and 6). -/
def JvmBuilder.build (b : JvmBuilder) : Except J4rsError Jvm :=
  Except.ok { classpath := b.cp_entries, java_opts := b.opts, detach_on_drop := true }

/-- The convenience constructor new_jvm of src/rust/src/lib.rs lines 53-59: it
    delegates to the builder chain, exactly as the source writes it. -/
def new_jvm (classpath_entries : List ClasspathEntry) (java_opts : List JavaOpt) :
    Except J4rsError Jvm :=
  ((JvmBuilder.new.classpath_entries classpath_entries).java_opts java_opts).build

/-- The host side of one callback channel registration: whether the receiver is
    still alive and the envelopes queued for it, in arrival order. This is the
    sender allocation that init_callback_channel leaks and whose raw address is
    handed to the managed runtime (spec section 4.5). -/
structure Channel where
  receiver_open : Bool
  queue : List Instance
deriving Repr

/-- One mpsc send through the sender recovered from the leaked allocation: it
    succeeds and enqueues while the receiver is alive, and fails without enqueuing
    once the receiver was dropped. -/
def Channel.send (ch : Channel) (i : Instance) : Bool × Channel :=
  if ch.receiver_open then (true, { ch with queue := ch.queue ++ [i] })
  else (false, ch)

/-- Outcome of one run of the callback bridge entry point: a normal return to the
    managed runtime, or an unwind out of the entry point with a panic message. -/
inductive BridgeOutcome where
  | returned
  | panicked (message : String)
deriving DecidableEq, Repr

/-- Post-state of one run of the callback bridge entry point: the outcome, the
    state of the sender allocation after the run (none would mean the allocation
    was freed), and the gateway attachment configuration that was active during
    delivery (none when the attach itself failed). -/
structure BridgeResult where
  outcome : BridgeOutcome
  alloc : Option Channel
  jvm_used : Option Jvm
deriving Repr

/-- The callback bridge entry point
    Java_org_astonbitecode_j4rs_api_invocation_NativeCallbackToRustChannelSupport_docallbacktochannel
    of src/rust/src/lib.rs lines 61-78. The jlong ptr_address argument is modelled
    by passing the sender allocation it points to, which the registration protocol
    leaked and never frees (spec section 4.5); the results of Jvm.attach_thread and
    of Instance.from on the delivered jobject are inputs, their implementations
    living outside src. The expect on the attach result and the two panic branches
    of the source are modelled as the panicked outcome carrying the source's
    message; the mem.forget of the recovered sender box is modelled by the
    allocation staying present (some) after the send on both the success and the
    failure path, and the reconstruction-failure path never touches the
    allocation at all. -/
def docallbacktochannel (attach_res : Except String Jvm)
    (instance_res : Except String Instance) (ch : Channel) : BridgeResult :=
  match attach_res with
  | .error _ =>
    { outcome := .panicked "Could not create a j4rs Jvm while invoking callback to channel.",
      alloc := some ch, jvm_used := none }
  | .ok jvm0 =>
    let jvm := jvm0.detach_thread_on_drop false
    match instance_res with
    | .ok inst =>
      let sent := ch.send inst
      if sent.1 then
        { outcome := .returned, alloc := some sent.2, jvm_used := some jvm }
      else
        { outcome := .panicked "Could not send to the defined callback channel",
          alloc := some sent.2, jvm_used := some jvm }
    | .error _ =>
      { outcome := .panicked "Could not create Instance from the NativeInvocation object...",
        alloc := some ch, jvm_used := some jvm }

/-- Sequential arrival order of a batch of deliveries at one registered channel:
    each managed-runtime thread invokes the entry point once and the mpsc sender
    serializes the sends, so an interleaving of the delivering threads is an
    arrival order of the delivered instances, folded here over the entry point. -/
def deliverSeq (jvm0 : Jvm) : List Instance → Channel → Channel
  | [], ch => ch
  | i :: rest, ch =>
    match (docallbacktochannel (.ok jvm0) (.ok i) ch).alloc with
    | some ch2 => deliverSeq jvm0 rest ch2
    | none => ch

/-- Whether a handle refers to a managed string, the envelope type the callback
    tests deliver. -/
def isStringInstance (i : Instance) : Bool :=
  match i.value with
  | .jstring _ => true
  | _ => false

/-- Modelled from the spec: a host thread must hold a live attachment before
    issuing any call into the managed runtime (spec sections 4.1 and 5); the
    handle itself carries no thread-affinity data, so the outcome depends only on
    the calling thread's attachment and on the handle. -/
def invoke_on_thread (attached : List Nat) (tid : Nat) (i : Instance) (method : String) :
    Except J4rsError Instance :=
  if tid ∈ attached then invoke i method else Except.error .AttachFailed

/-- A managed string handle, as created from a host string. -/
def stringInstance (s : String) : Instance :=
  ⟨"java.lang.String", "java.lang.String", .jstring s⟩

/-- A managed 64-bit integer handle. -/
def longInstance (v : Int) : Instance :=
  ⟨"java.lang.Long", "java.lang.Long", .jlong v⟩

/-- A default runtime handle configuration used for concrete evaluations. -/
def jvmDefault : Jvm :=
  { classpath := [], java_opts := [], detach_on_drop := true }

/-- A registered channel whose receiver is alive and whose queue is empty. -/
def chanOpen : Channel :=
  { receiver_open := true, queue := [] }

/-- A registered channel whose receiver has been dropped. -/
def chanClosed : Channel :=
  { receiver_open := false, queue := [] }

/-- A concrete assignability table for the classes the tests exercise: every class
    is assignable to itself and to java.lang.Object, and java.util.HashMap is
    assignable to its java.util.Map interface. -/
def testTable : ClassTable :=
  { assignable := fun target runtime =>
      target = runtime || (target = "java.util.Map" && runtime = "java.util.HashMap") ||
        target = "java.lang.Object" }

/-- The handle the modelled MyTest getMap returns: a two-entry map whose runtime
    class is java.util.HashMap. -/
def hashMapInstance : Instance :=
  ⟨"java.util.HashMap", "java.util.HashMap", .jarray "java.util.Map" [.jstring "one", .jstring "two"]⟩

end J4rs

namespace J4rs

/-- Helper: with a live receiver, a batch of deliveries through the entry point
    appends the delivered instances to the queue in arrival order and keeps the
    receiver open. -/
theorem deliverSeq_open (jvm0 : Jvm) (insts : List Instance) :
    ∀ q : List Instance,
      deliverSeq jvm0 insts { receiver_open := true, queue := q } =
        { receiver_open := true, queue := q ++ insts } := by
  induction insts with
  | nil => intro q; simp [deliverSeq]
  | cons i rest ih =>
    intro q
    have h1 : (docallbacktochannel (.ok jvm0) (.ok i)
        { receiver_open := true, queue := q }).alloc =
        some { receiver_open := true, queue := q ++ [i] } := rfl
    simp only [deliverSeq, h1]
    rw [ih (q ++ [i])]
    simp

/-- Helper: a string-valued envelope converts to a host string. -/
theorem to_rust_of_stringInstance (e : Instance) (h : isStringInstance e = true) :
    ∃ s, to_rust_string e = Except.ok s := by
  unfold isStringInstance at h
  unfold to_rust_string
  cases hv : e.value <;> simp_all

/-- C1 counterexample: with a successfully attached thread, a successfully
    reconstructed instance and a closed receiving channel, the entry point unwinds
    with a panic message instead of logging and returning normally. -/
theorem docallbacktochannel_panics_on_closed_channel :
    (docallbacktochannel (Except.ok jvmDefault) (Except.ok (stringInstance "x"))
        chanClosed).outcome =
      BridgeOutcome.panicked "Could not send to the defined callback channel" := rfl

/-- C1 amended: unrecoverable internal errors in the callback bridge entry point
    (attach failure, failed reconstruction of the delivered object, or a send
    failure because the receiving channel was closed) are fatal to that delivery
    attempt and are surfaced by panicking (unwinding) with a descriptive message,
    never silently swallowed; the entry point returns normally exactly when every
    step succeeds, and on every failure it unwinds rather than logging. -/
theorem docallbacktochannel_errors_panic (a : Except String Jvm)
    (ir : Except String Instance) (ch : Channel) :
    ((docallbacktochannel a ir ch).outcome = BridgeOutcome.returned ↔
      (a.toOption.isSome = true ∧ ir.toOption.isSome = true ∧ ch.receiver_open = true)) ∧
    ∀ msg, (docallbacktochannel a ir ch).outcome = BridgeOutcome.panicked msg →
      msg ≠ "" := by
  cases a <;> cases ir <;> by_cases hro : ch.receiver_open = true <;>
    simp_all [docallbacktochannel, Channel.send, Except.toOption]

/-- Witness for the amended C1 theorem at a failed attachment. -/
theorem docallbacktochannel_errors_panic_witness :
    (docallbacktochannel (Except.error "attach failed")
        (Except.ok (stringInstance "x")) chanOpen).outcome =
      BridgeOutcome.panicked "Could not create a j4rs Jvm while invoking callback to channel." ∧
    "Could not create a j4rs Jvm while invoking callback to channel." ≠ "" :=
  ⟨rfl,
    (docallbacktochannel_errors_panic (Except.error "attach failed")
        (Except.ok (stringInstance "x")) chanOpen).2 _ rfl⟩

end J4rs

namespace J4rs

/-- C2: ten deliveries through the bridge into one registered channel, arriving in
    any order (so for every interleaving of the ten delivering threads), leave
    exactly ten envelopes in the receiver after draining, each converting to the
    expected host string type. -/
theorem ten_callbacks_any_interleaving (jvm0 : Jvm) (insts : List Instance)
    (hlen : insts.length = 10) (hstr : insts.all isStringInstance = true) :
    (deliverSeq jvm0 insts chanOpen).queue.length = 10 ∧
      ∀ e ∈ (deliverSeq jvm0 insts chanOpen).queue,
        ∃ s, to_rust_string e = Except.ok s := by
  have h := deliverSeq_open jvm0 insts []
  have hc : chanOpen = { receiver_open := true, queue := [] } := rfl
  rw [hc, h]
  constructor
  · simpa using hlen
  · intro e he
    simp only [List.nil_append] at he
    rw [List.all_eq_true] at hstr
    exact to_rust_of_stringInstance e (hstr e he)

/-- Witness for C2 at ten concrete string envelopes. -/
theorem ten_callbacks_any_interleaving_witness :
    (deliverSeq jvmDefault (List.replicate 10 (stringInstance "x")) chanOpen).queue.length = 10 ∧
      ∀ e ∈ (deliverSeq jvmDefault (List.replicate 10 (stringInstance "x")) chanOpen).queue,
        ∃ s, to_rust_string e = Except.ok s :=
  ten_callbacks_any_interleaving jvmDefault (List.replicate 10 (stringInstance "x"))
    (by rfl) (by rfl)

/-- C3: every run of the entry point, on the successful-send path, the failed-send
    path, and the reconstruction- or attach-failure paths alike, leaves the sender
    allocation alive (never freed) with the receiver state untouched, and the same
    allocation accepts every subsequent delivery while the receiver lives. -/
theorem docallbacktochannel_never_frees (a : Except String Jvm)
    (ir : Except String Instance) (ch : Channel) :
    ∃ ch2, (docallbacktochannel a ir ch).alloc = some ch2 ∧
      ch2.receiver_open = ch.receiver_open ∧
      (ch.receiver_open = true → ∀ jvm2 inst2,
        (docallbacktochannel (.ok jvm2) (.ok inst2) ch2).outcome = .returned) := by
  cases a with
  | error e =>
    exact ⟨ch, rfl, rfl, fun h jvm2 inst2 => by
      simp [docallbacktochannel, Channel.send, h]⟩
  | ok jvm0 =>
    cases ir with
    | error e =>
      exact ⟨ch, rfl, rfl, fun h jvm2 inst2 => by
        simp [docallbacktochannel, Channel.send, h]⟩
    | ok inst =>
      by_cases h : ch.receiver_open = true
      · refine ⟨{ ch with queue := ch.queue ++ [inst] }, ?_, rfl, ?_⟩
        · simp [docallbacktochannel, Channel.send, h]
        · intro _ jvm2 inst2
          simp [docallbacktochannel, Channel.send, h]
      · refine ⟨ch, ?_, rfl, fun htrue _ _ => absurd htrue h⟩
        have hf : ch.receiver_open = false := by simpa using h
        simp [docallbacktochannel, Channel.send, hf]

/-- Witness for C3 at a concrete open channel and delivery. -/
theorem docallbacktochannel_never_frees_witness :
    ∃ ch2, (docallbacktochannel (Except.ok jvmDefault)
        (Except.ok (stringInstance "x")) chanOpen).alloc = some ch2 ∧
      ch2.receiver_open = chanOpen.receiver_open ∧
      (chanOpen.receiver_open = true → ∀ jvm2 inst2,
        (docallbacktochannel (.ok jvm2) (.ok inst2) ch2).outcome = .returned) :=
  docallbacktochannel_never_frees (Except.ok jvmDefault)
    (Except.ok (stringInstance "x")) chanOpen

/-- C4: whenever the entry point runs with a successful attachment, the gateway
    attachment configuration used for the delivery has detach on drop disabled, so
    the bridge never detaches a thread the managed runtime created. -/
theorem docallbacktochannel_detach_false (a : Except String Jvm)
    (ir : Except String Instance) (ch : Channel) (j : Jvm)
    (h : (docallbacktochannel a ir ch).jvm_used = some j) :
    j.detach_on_drop = false := by
  cases a with
  | error e => simp [docallbacktochannel] at h
  | ok jvm0 =>
    cases ir with
    | ok inst =>
      have heq : (docallbacktochannel (.ok jvm0) (.ok inst) ch).jvm_used =
          some (jvm0.detach_thread_on_drop false) := by
        by_cases hro : ch.receiver_open = true <;>
          simp_all [docallbacktochannel, Channel.send]
      rw [heq] at h
      injection h with h2
      rw [← h2]
      rfl
    | error e =>
      have heq : (docallbacktochannel (.ok jvm0) (.error e) ch).jvm_used =
          some (jvm0.detach_thread_on_drop false) := by
        simp [docallbacktochannel]
      rw [heq] at h
      injection h with h2
      rw [← h2]
      rfl

/-- Witness for C4 at a concrete successful delivery. -/
theorem docallbacktochannel_detach_false_witness :
    (jvmDefault.detach_thread_on_drop false).detach_on_drop = false :=
  docallbacktochannel_detach_false (Except.ok jvmDefault)
    (Except.ok (stringInstance "x")) chanOpen
    (jvmDefault.detach_thread_on_drop false) (by rfl)

end J4rs

namespace J4rs

/-- C5: for every host string s, constructing a managed string from s and
    converting the resulting handle back to a host string yields s unchanged. -/
theorem string_round_trip (s : String) :
    create_instance "java.lang.String" [.from_host (.jstring s) "java.lang.String"] =
      Except.ok (stringInstance s) ∧
    to_rust_string (stringInstance s) = Except.ok s := by
  exact ⟨rfl, rfl⟩

/-- C6: building a managed string array from abc, def, ghi, constructing MyTest
    with it, and invoking getMyString yields a handle converting to the host
    string abc, def, ghi. -/
theorem variadic_constructor_concatenation :
    (create_java_array "java.lang.String"
        [.from_host (.jstring "abc") "java.lang.String",
         .from_host (.jstring "def") "java.lang.String",
         .from_host (.jstring "ghi") "java.lang.String"]).bind
      (fun arr => (create_instance "org.astonbitecode.j4rs.tests.MyTest"
          [.from_handle arr "java.lang.String[]"]).bind
        (fun ti => (invoke ti "getMyString").bind to_rust_string)) =
      Except.ok "abc, def, ghi" := by
  rfl

/-- C7: from_wire of a managed 64-bit integer into a 32-bit host target is
    overflow-checked: the value 2 to the 40th fails with NumericOverflow, and any
    conversion that succeeds returns the value unchanged, never truncated. -/
theorem from_wire_i32_overflow_checked :
    from_wire_i32 (longInstance (2 ^ 40)) = Except.error J4rsError.NumericOverflow ∧
    ∀ v r : Int, from_wire_i32 (longInstance v) = Except.ok r → r = v := by
  constructor
  · norm_num [from_wire_i32, longInstance]
  · intro v r h
    by_cases hc : -(2 ^ 31 : Int) ≤ v ∧ v < 2 ^ 31
    · have heq : from_wire_i32 (longInstance v) = Except.ok v := by
        simp only [from_wire_i32, longInstance]
        rw [if_pos hc]
      rw [heq] at h
      injection h with h2
      exact h2.symm
    · have heq : from_wire_i32 (longInstance v) = Except.error .NumericOverflow := by
        simp only [from_wire_i32, longInstance]
        rw [if_neg hc]
      rw [heq] at h
      cases h

/-- Witness for C7 at a value that fits a 32-bit target. -/
theorem from_wire_i32_overflow_checked_witness :
    from_wire_i32 (longInstance 5) = Except.ok 5 ∧ (5 : Int) = 5 := by
  have h : from_wire_i32 (longInstance 5) = Except.ok 5 := by
    norm_num [from_wire_i32, longInstance]
  exact ⟨h, from_wire_i32_overflow_checked.2 5 5 h⟩

/-- C8: cast fails with IllegalCast exactly when the target class is not
    assignable from the object's runtime class; a successful cast keeps the same
    underlying reference and re-points subsequent method resolution at the new
    declared type. -/
theorem cast_illegal_iff_not_assignable (t : ClassTable) (i : Instance) (target : String) :
    (J4rs.cast t i target = Except.error J4rsError.IllegalCast ↔
      t.assignable target i.runtime_class = false) ∧
    ∀ i2, J4rs.cast t i target = Except.ok i2 →
      i2.class_name = target ∧ i2.runtime_class = i.runtime_class ∧ i2.value = i.value ∧
      ∀ m, invoke i2 m = invokeImpl target i.value m := by
  by_cases h : t.assignable target i.runtime_class = true
  · constructor
    · simp [J4rs.cast, h]
    · intro i2 h2
      simp only [J4rs.cast, h, if_pos] at h2
      injection h2 with h3
      rw [← h3]
      exact ⟨rfl, rfl, rfl, fun m => rfl⟩
  · have hf : t.assignable target i.runtime_class = false := by simpa using h
    constructor
    · simp [J4rs.cast, hf]
    · intro i2 h2
      simp [J4rs.cast, hf] at h2

/-- Witness for C8: casting the two-entry HashMap to an unrelated class fails with
    IllegalCast, and casting it to its Map interface succeeds with the declared
    type re-pointed at the interface. -/
theorem cast_illegal_iff_not_assignable_witness :
    J4rs.cast testTable hashMapInstance "java.lang.Integer" =
      Except.error J4rsError.IllegalCast ∧
    ({ hashMapInstance with class_name := "java.util.Map" } : Instance).class_name =
      "java.util.Map" := by
  constructor
  · exact (cast_illegal_iff_not_assignable testTable hashMapInstance
      "java.lang.Integer").1.mpr (by rfl)
  · exact ((cast_illegal_iff_not_assignable testTable hashMapInstance
      "java.util.Map").2 { hashMapInstance with class_name := "java.util.Map" }
      (by rfl)).1

/-- C9: the convenience constructor new_jvm returns exactly the result of the
    builder chain JvmBuilder.new with the classpath entries and options set and
    then built; it adds no behaviour of its own. -/
theorem new_jvm_refines_builder (cp : List ClasspathEntry) (opts : List JavaOpt) :
    new_jvm cp opts =
      ((JvmBuilder.new.classpath_entries cp).java_opts opts).build := rfl

/-- C10: a handle moved to a different host thread is usable from there: once the
    new thread holds an attachment, invoking through the moved handle gives
    exactly the result the invocation engine gives for that handle, with the same
    handle and no freshly minted reference involved; the outcome depends only on
    the calling thread's attachment because the handle itself carries no
    thread-affinity data. -/
theorem moved_handle_invocation (attached : List Nat) (t2 : Nat) (i : Instance)
    (method : String) (r : Instance) (hatt : t2 ∈ attached)
    (hinv : invoke i method = Except.ok r) :
    invoke_on_thread attached t2 i method = Except.ok r := by
  unfold invoke_on_thread
  rw [if_pos hatt]
  exact hinv

/-- Witness for C10: a string handle created while thread 1 ran is invoked from
    attached thread 2. -/
theorem moved_handle_invocation_witness :
    invoke_on_thread [1, 2] 2 (stringInstance "") "isEmpty" =
      Except.ok ⟨"java.lang.Boolean", "java.lang.Boolean", .jbool true⟩ :=
  moved_handle_invocation [1, 2] 2 (stringInstance "") "isEmpty"
    ⟨"java.lang.Boolean", "java.lang.Boolean", .jbool true⟩ (by decide) (by rfl)

end J4rs
